import Mathlib

/-!
# Animated triangle: per-frame transform, shader builder and render loop

A shallow embedding of `src/main.cpp`.

* The per-frame arithmetic (`slowTime`, `transX`, `transY`, `angle`, `scale`,
  `transform`) is written over an arbitrary field `α` with the two
  trigonometric functions passed in, so that the definitions stay executable;
  the theorems instantiate `α := ℝ`, `sin := Real.sin`, `cos := Real.cos`.
  Rounding of `float` is not modelled.
* The calls into GLFW / GLAD / OpenGL are recorded as a trace of `Call`s; the
  answers of the driver are read from a `Driver` record. The render loop is
  bounded by a `fuel` that counts evaluations of its condition.
-/

namespace Triangle

/-! ## Per-frame arithmetic (`main`, lines 142-163) -/

section Arithmetic

variable {α : Type} [Field α]

/-- The local `slowTime` of the render loop: `float slowTime = time / 2.0f;`. -/
def slowTime (time : α) : α := time / 2.0

/-- The local `transX`: `float transX = sin(slowTime) * 0.3f;`. -/
def transX (sin : α → α) (time : α) : α := sin (slowTime time) * 0.3

/-- The local `transY`: `float transY = cos(slowTime) * 0.3f;`. -/
def transY (cos : α → α) (time : α) : α := cos (slowTime time) * 0.3

/-- The local `angle`: `float angle = slowTime * 25.0f;`. -/
def angle (time : α) : α := slowTime time * 25.0

/-- The local `scale`: `float scale = 0.7f + sin(slowTime) * 0.1f;`. -/
def scale (sin : α → α) (time : α) : α := 0.7 + sin (slowTime time) * 0.1

/-- The local array `float transform[16] = { ... }`, in the order the
initialiser list writes its sixteen entries. -/
def transform (sin cos : α → α) (time : α) : List α :=
  [ scale sin time * cos (angle time), (-scale sin time) * sin (angle time), 0.0, transX sin time,
    scale sin time * sin (angle time),  scale sin time * cos (angle time),   0.0, transY cos time,
    0.0,                                0.0,                                 1.0, 0.0,
    0.0,                                0.0,                                 0.0, 1.0 ]

/-- The matrix a `mat4` uniform holds after
`glUniformMatrix4fv(location, 1, transpose, value)`, as the OpenGL reference
defines it: the sixteen floats are read in column-major order when `transpose`
is `GL_FALSE` and in row-major order when it is `GL_TRUE`. The entry in row `r`
and column `c` is `value[4*c + r]`, respectively `value[4*r + c]`. -/
def glUniformMatrix4fv (transpose : Bool) (value : List α) : Matrix (Fin 4) (Fin 4) α :=
  Matrix.of fun r c =>
    if transpose then value.getD (4 * r.val + c.val) 0 else value.getD (4 * c.val + r.val) 0

/-- The vertex shader's `gl_Position = transform * vec4(aPos, 1.0);` for a
uniform value `m` and a vertex position `aPos = (x, y, z)`: in GLSL a `mat4`
times a `vec4` is the matrix-vector product. -/
def gl_Position (m : Matrix (Fin 4) (Fin 4) α) (aPos : α × α × α) : Fin 4 → α :=
  m.mulVec ![aPos.1, aPos.2.1, aPos.2.2, 1.0]

/-- The value of `gl_Position` in the frame drawn at elapsed time `time`: the
array is uploaded with `glUniformMatrix4fv(transformLoc, 1, GL_FALSE, transform)`. -/
def framePosition (sin cos : α → α) (time : α) (aPos : α × α × α) : Fin 4 → α :=
  gl_Position (glUniformMatrix4fv false (transform sin cos time)) aPos

/-- The array `transform` read the way the initialiser list is laid out in the
source, four rows of four entries. -/
def transformRows (sin cos : α → α) (time : α) : Matrix (Fin 4) (Fin 4) α :=
  glUniformMatrix4fv true (transform sin cos time)

end Arithmetic

/-! ## Constants of the OpenGL and GLFW headers used by `main.cpp` -/

/-- The header value of `GL_VERTEX_SHADER`. -/
def GL_VERTEX_SHADER : Nat := 0x8B31
/-- The header value of `GL_FRAGMENT_SHADER`. -/
def GL_FRAGMENT_SHADER : Nat := 0x8B30
/-- The header value of `GL_COMPILE_STATUS`. -/
def GL_COMPILE_STATUS : Nat := 0x8B81
/-- The header value of `GL_LINK_STATUS`. -/
def GL_LINK_STATUS : Nat := 0x8B82
/-- The header value of `GL_ARRAY_BUFFER`. -/
def GL_ARRAY_BUFFER : Nat := 0x8892
/-- The header value of `GL_STATIC_DRAW`. -/
def GL_STATIC_DRAW : Nat := 0x88E4
/-- The header value of `GL_FLOAT`. -/
def GL_FLOAT : Nat := 0x1406
/-- The header value of `GL_COLOR_BUFFER_BIT`. -/
def GL_COLOR_BUFFER_BIT : Nat := 0x4000
/-- The header value of `GL_TRIANGLES`. -/
def GL_TRIANGLES : Nat := 0x0004
/-- The header value of `GLFW_CONTEXT_VERSION_MAJOR`. -/
def GLFW_CONTEXT_VERSION_MAJOR : Nat := 0x00022002
/-- The header value of `GLFW_CONTEXT_VERSION_MINOR`. -/
def GLFW_CONTEXT_VERSION_MINOR : Nat := 0x00022003
/-- The header value of `GLFW_OPENGL_PROFILE`. -/
def GLFW_OPENGL_PROFILE : Nat := 0x00022008
/-- The header value of `GLFW_OPENGL_CORE_PROFILE`. -/
def GLFW_OPENGL_CORE_PROFILE : Nat := 0x00032001
/-- The size of a `float` in bytes, as `sizeof(float)` on the supported platforms. -/
def sizeofFloat : Nat := 4

/-- The global `vertexShaderSource`. -/
def vertexShaderSource : String :=
  "\n#version 330 core\nlayout (location = 0) in vec3 aPos;\nlayout (location = 1) in vec3 aColor;\n\nout vec3 ourColor;\n\nuniform mat4 transform;\n\nvoid main()\n\x7b\n    gl_Position = transform * vec4(aPos, 1.0);\n    ourColor = aColor;\n\x7d\n"

/-- The global `fragmentShaderSource`. -/
def fragmentShaderSource : String :=
  "\n#version 330 core\nin vec3 ourColor;\nout vec4 FragColor;\n\nvoid main()\n\x7b\n    FragColor = vec4(ourColor, 1.0);\n\x7d\n"

/-! ## Calls into the libraries and the answers of the driver -/

/-- One observable action of the program: a call into GLFW, GLAD or OpenGL
with its arguments, or a write to `std::cerr` (the text includes the line end
written by `std::endl`). Handles and pointers are natural numbers, `0` being
`NULL`. -/
inductive Call (α : Type) where
  | glfwInit
  | cerr (text : String)
  | glfwWindowHint (hint value : Nat)
  | glfwCreateWindow (width height : Nat) (title : String)
  | glfwTerminate
  | glfwMakeContextCurrent (window : Nat)
  | gladLoadGLLoader
  | glCreateShader (type : Nat)
  | glShaderSource (shader count : Nat) (source : String)
  | glCompileShader (shader : Nat)
  | glGetShaderiv (shader pname : Nat)
  | glGetShaderInfoLog (shader maxLength : Nat)
  | glCreateProgram
  | glAttachShader (program shader : Nat)
  | glLinkProgram (program : Nat)
  | glGetProgramiv (program pname : Nat)
  | glGetProgramInfoLog (program maxLength : Nat)
  | glDeleteShader (shader : Nat)
  | glGenVertexArrays (n : Nat)
  | glGenBuffers (n : Nat)
  | glBindVertexArray (array : Nat)
  | glBindBuffer (target buffer : Nat)
  | glBufferData (target size : Nat) (data : List α) (usage : Nat)
  | glVertexAttribPointer (index size type : Nat) (normalized : Bool) (stride pointer : Nat)
  | glEnableVertexAttribArray (index : Nat)
  | glfwWindowShouldClose (window : Nat)
  | glClearColor (red green blue alpha : α)
  | glClear (mask : Nat)
  | glUseProgram (program : Nat)
  | glfwGetTime
  | glGetUniformLocation (program : Nat) (name : String)
  | glUniformMatrix4fv (location : Int) (count : Nat) (transpose : Bool) (value : List α)
  | glDrawArrays (mode first count : Nat)
  | glfwSwapBuffers (window : Nat)
  | glfwPollEvents
  | glDeleteVertexArrays (n array : Nat)
  | glDeleteBuffers (n buffer : Nat)
  | glDeleteProgram (program : Nat)

/-- The answers of the windowing system and of the graphics driver that the
program reads. Integer results keep the C convention: `0` is failure/false. -/
structure Driver (α : Type) where
  /-- Result of `glfwInit()`. -/
  glfwInit : Int
  /-- Pointer returned by `glfwCreateWindow`; `0` is `NULL`. -/
  glfwCreateWindow : Nat
  /-- Result of `gladLoadGLLoader`. -/
  gladLoadGLLoader : Int
  /-- Handle returned by `glCreateShader(type)`. -/
  glCreateShader : Nat → Nat
  /-- The `GL_COMPILE_STATUS` of the shader of the given type. -/
  compileStatus : Nat → Int
  /-- The info log of the shader of the given type. -/
  shaderInfoLog : Nat → String
  /-- Handle returned by `glCreateProgram()`. -/
  glCreateProgram : Nat
  /-- The `GL_LINK_STATUS` of the program. -/
  linkStatus : Int
  /-- The info log of the program. -/
  programInfoLog : String
  /-- The name `glGenVertexArrays` stores in `VAO`. -/
  genVertexArray : Nat
  /-- The name `glGenBuffers` stores in `VBO`. -/
  genBuffer : Nat
  /-- Result of the `i`-th call (from 0) of `glfwWindowShouldClose`. -/
  glfwWindowShouldClose : Nat → Int
  /-- Result of `glfwGetTime()` in iteration `i`. -/
  glfwGetTime : Nat → α
  /-- Result of `glGetUniformLocation` in iteration `i`. -/
  glGetUniformLocation : Nat → Int

/-- What a run of `main` has done: the calls made so far, and the value
returned by `main`, `none` while the render loop is still running. -/
structure Outcome (α : Type) where
  calls : List (Call α)
  exit : Option Int

namespace Call

variable {α : Type}

/-- A write to the diagnostic stream. -/
def isCerr : Call α → Bool
  | cerr _ => true
  | _ => false

/-- A draw call. -/
def isDraw : Call α → Bool
  | glDrawArrays _ _ _ => true
  | _ => false

/-- An observation of the window's close flag. -/
def isShouldClose : Call α → Bool
  | glfwWindowShouldClose _ => true
  | _ => false

/-- A call that releases a resource or tears a subsystem down. -/
def isCleanup : Call α → Bool
  | glfwTerminate => true
  | glDeleteShader _ => true
  | glDeleteVertexArrays _ _ => true
  | glDeleteBuffers _ _ => true
  | glDeleteProgram _ => true
  | _ => false

/-- A call into OpenGL proper (a `gl...` function): shader and program
creation, buffer and vertex-array setup, per-frame state, drawing, deletion. -/
def isGL : Call α → Bool
  | glfwInit => false
  | cerr _ => false
  | glfwWindowHint _ _ => false
  | glfwCreateWindow _ _ _ => false
  | glfwTerminate => false
  | glfwMakeContextCurrent _ => false
  | gladLoadGLLoader => false
  | glfwWindowShouldClose _ => false
  | glfwGetTime => false
  | glfwSwapBuffers _ => false
  | glfwPollEvents => false
  | _ => true

end Call

/-! ## The shader builder (`compileShader`, `createShaderProgram`) -/

section Program

variable {α : Type} [Field α]

/-- The function `compileShader(type, source)`: the calls it makes and the
shader handle it returns. -/
def compileShader (d : Driver α) (type : Nat) (source : String) : List (Call α) × Nat :=
  let shader := d.glCreateShader type
  let success := d.compileStatus type
  let infoLog := d.shaderInfoLog type
  ([Call.glCreateShader type, Call.glShaderSource shader 1 source, Call.glCompileShader shader,
      Call.glGetShaderiv shader GL_COMPILE_STATUS] ++
    (if success = 0 then
      [Call.glGetShaderInfoLog shader 512,
        Call.cerr ("ERRO::SHADER::" ++ (if type = GL_VERTEX_SHADER then "VERTEX" else "FRAGMENT")
          ++ "::COMPILACAO_FALHOU\n" ++ infoLog ++ "\n")]
    else []),
   shader)

/-- The function `createShaderProgram(vertexSource, fragmentSource)`: the calls
it makes and the program handle it returns. -/
def createShaderProgram (d : Driver α) (vertexSource fragmentSource : String) :
    List (Call α) × Nat :=
  let vertexShader := compileShader d GL_VERTEX_SHADER vertexSource
  let fragmentShader := compileShader d GL_FRAGMENT_SHADER fragmentSource
  let shaderProgram := d.glCreateProgram
  let success := d.linkStatus
  let infoLog := d.programInfoLog
  (vertexShader.1 ++ fragmentShader.1 ++
    [Call.glCreateProgram, Call.glAttachShader shaderProgram vertexShader.2,
      Call.glAttachShader shaderProgram fragmentShader.2, Call.glLinkProgram shaderProgram,
      Call.glGetProgramiv shaderProgram GL_LINK_STATUS] ++
    (if success = 0 then
      [Call.glGetProgramInfoLog shaderProgram 512,
        Call.cerr ("ERRO::PROGRAMA::SHADER::LINKING_FALHOU\n" ++ infoLog ++ "\n")]
    else []) ++
    [Call.glDeleteShader vertexShader.2, Call.glDeleteShader fragmentShader.2],
   shaderProgram)

/-! ## `main` -/

/-- The local array `float vertices[]` of `main`. -/
def vertices : List α :=
  [ -0.5, -0.5, 0.0, 1.0, 0.0, 0.0,
     0.5, -0.5, 0.0, 0.0, 1.0, 0.0,
     0.0,  0.5, 0.0, 0.0, 0.0, 1.0 ]

/-- The calls of `main` from the creation of the shader program up to the
render loop (lines 104-130), for the program handle and the two names the
driver generated. -/
def setupCalls (d : Driver α) : List (Call α) :=
  let shaderProgram := createShaderProgram d vertexShaderSource fragmentShaderSource
  let VAO := d.genVertexArray
  let VBO := d.genBuffer
  shaderProgram.1 ++
    [Call.glGenVertexArrays 1, Call.glGenBuffers 1,
      Call.glBindVertexArray VAO, Call.glBindBuffer GL_ARRAY_BUFFER VBO,
      Call.glBufferData GL_ARRAY_BUFFER ((vertices : List α).length * sizeofFloat) vertices
        GL_STATIC_DRAW,
      Call.glVertexAttribPointer 0 3 GL_FLOAT false (6 * sizeofFloat) 0,
      Call.glEnableVertexAttribArray 0,
      Call.glVertexAttribPointer 1 3 GL_FLOAT false (6 * sizeofFloat) (3 * sizeofFloat),
      Call.glEnableVertexAttribArray 1]

/-- The body of the render loop (lines 134-175) in iteration `i`. The value
`glGetUniformLocation` returns passes through `unsigned int transformLoc`
unchanged. -/
def loopBody (sin cos : α → α) (d : Driver α) (window shaderProgram VAO i : Nat) :
    List (Call α) :=
  let time := d.glfwGetTime i
  let transformLoc := d.glGetUniformLocation i
  [Call.glClearColor 0.2 0.3 0.3 1.0, Call.glClear GL_COLOR_BUFFER_BIT,
    Call.glUseProgram shaderProgram,
    Call.glfwGetTime,
    Call.glGetUniformLocation shaderProgram "transform",
    Call.glUniformMatrix4fv transformLoc 1 false (transform sin cos time),
    Call.glBindVertexArray VAO, Call.glDrawArrays GL_TRIANGLES 0 3,
    Call.glfwSwapBuffers window, Call.glfwPollEvents]

/-- The loop `while (!glfwWindowShouldClose(window)) { ... }` started at
iteration `i`, run for at most `fuel` evaluations of its condition: the calls
made, and whether the loop has ended (the close flag was observed true). -/
def renderLoop (sin cos : α → α) (d : Driver α) (window shaderProgram VAO : Nat) :
    Nat → Nat → List (Call α) × Bool
  | 0, _ => ([], false)
  | fuel + 1, i =>
    if d.glfwWindowShouldClose i = 0 then
      let rest := renderLoop sin cos d window shaderProgram VAO fuel (i + 1)
      (Call.glfwWindowShouldClose window :: loopBody sin cos d window shaderProgram VAO i ++ rest.1,
        rest.2)
    else
      ([Call.glfwWindowShouldClose window], true)

/-- The function `main`, with the render loop bounded by `fuel` evaluations of
its condition. -/
def main (sin cos : α → α) (d : Driver α) (fuel : Nat) : Outcome α :=
  if d.glfwInit = 0 then
    ⟨[Call.glfwInit, Call.cerr "Falha ao inicializar GLFW\n"], some (-1)⟩
  else
    let window := d.glfwCreateWindow
    let created : List (Call α) :=
      [Call.glfwInit,
        Call.glfwWindowHint GLFW_CONTEXT_VERSION_MAJOR 3,
        Call.glfwWindowHint GLFW_CONTEXT_VERSION_MINOR 3,
        Call.glfwWindowHint GLFW_OPENGL_PROFILE GLFW_OPENGL_CORE_PROFILE,
        Call.glfwCreateWindow 800 600 "Triangulo OpenGL com Transformacoes (Lento)"]
    if window = 0 then
      ⟨created ++ [Call.cerr "Falha ao criar janela GLFW\n", Call.glfwTerminate], some (-1)⟩
    else
      let loaded := created ++ [Call.glfwMakeContextCurrent window, Call.gladLoadGLLoader]
      if d.gladLoadGLLoader = 0 then
        ⟨loaded ++ [Call.cerr "Falha ao inicializar GLAD\n"], some (-1)⟩
      else
        let shaderProgram := (createShaderProgram d vertexShaderSource fragmentShaderSource).2
        let VAO := d.genVertexArray
        let VBO := d.genBuffer
        let loop := renderLoop sin cos d window shaderProgram VAO fuel 0
        if loop.2 then
          ⟨loaded ++ setupCalls d ++ loop.1 ++
              [Call.glDeleteVertexArrays 1 VAO, Call.glDeleteBuffers 1 VBO,
                Call.glDeleteProgram shaderProgram, Call.glfwTerminate],
            some 0⟩
        else
          ⟨loaded ++ setupCalls d ++ loop.1, none⟩

/-- A driver on which everything succeeds and the window is closed when the
condition of the loop is evaluated for the third time. -/
def sampleDriver : Driver α where
  glfwInit := 1
  glfwCreateWindow := 7
  gladLoadGLLoader := 1
  glCreateShader := fun type => if type = GL_VERTEX_SHADER then 1 else 2
  compileStatus := fun _ => 1
  shaderInfoLog := fun _ => ""
  glCreateProgram := 3
  linkStatus := 1
  programInfoLog := ""
  genVertexArray := 1
  genBuffer := 1
  glfwWindowShouldClose := fun i => if i < 2 then 0 else 1
  glfwGetTime := fun i => (i : α) / 60
  glGetUniformLocation := fun _ => 0

/-- A driver on which `glfwInit` fails. -/
def noInitDriver : Driver α := { (sampleDriver : Driver α) with glfwInit := 0 }

/-- A driver on which `glfwCreateWindow` returns `NULL`. -/
def noWindowDriver : Driver α := { (sampleDriver : Driver α) with glfwCreateWindow := 0 }

/-- A driver on which `gladLoadGLLoader` fails. -/
def noLoaderDriver : Driver α := { (sampleDriver : Driver α) with gladLoadGLLoader := 0 }

end Program

/-! ## Theorems on the per-frame arithmetic -/

/-- C1: over the reals, the sixteen entries of `transform` are, in the order
written, `[s*cos a, -s*sin a, 0, tx, s*sin a, s*cos a, 0, ty, 0,0,1,0, 0,0,0,1]`
with `tx = 0.3*sin(t/2)`, `ty = 0.3*cos(t/2)`, `a = 25*(t/2)`,
`s = 0.7 + 0.1*sin(t/2)`. -/
theorem transform_entries (t : ℝ) :
    transform Real.sin Real.cos t =
      [ (0.7 + 0.1 * Real.sin (t / 2)) * Real.cos (25 * (t / 2)),
        -(0.7 + 0.1 * Real.sin (t / 2)) * Real.sin (25 * (t / 2)),
        0, 0.3 * Real.sin (t / 2),
        (0.7 + 0.1 * Real.sin (t / 2)) * Real.sin (25 * (t / 2)),
        (0.7 + 0.1 * Real.sin (t / 2)) * Real.cos (25 * (t / 2)),
        0, 0.3 * Real.cos (t / 2),
        0, 0, 1, 0,
        0, 0, 0, 1 ] := by
  have h2 : (2.0 : ℝ) = 2 := by norm_num
  have h25 : (25.0 : ℝ) = 25 := by norm_num
  have h0 : (0.0 : ℝ) = 0 := by norm_num
  have h1 : (1.0 : ℝ) = 1 := by norm_num
  simp only [transform, scale, transX, transY, angle, slowTime, h2, h25, h0, h1,
    mul_comm (t / 2) 25, mul_comm (Real.sin (t / 2)) _, mul_comm (Real.cos (t / 2)) _]

/-! ### Shared lemmas -/

lemma slowTime_real (t : ℝ) : slowTime t = t / 2 := by
  simp only [slowTime]; norm_num

lemma scale_real (t : ℝ) : scale Real.sin t = 0.7 + 0.1 * Real.sin (t / 2) := by
  simp only [scale, slowTime_real]; ring

lemma transX_real (t : ℝ) : transX Real.sin t = 0.3 * Real.sin (t / 2) := by
  simp only [transX, slowTime_real]; ring

lemma transY_real (t : ℝ) : transY Real.cos t = 0.3 * Real.cos (t / 2) := by
  simp only [transY, slowTime_real]; ring

lemma scale_real_bounds (t : ℝ) : 0.6 ≤ scale Real.sin t ∧ scale Real.sin t ≤ 0.8 := by
  rw [scale_real]
  have hlo := Real.neg_one_le_sin (t / 2)
  have hhi := Real.sin_le_one (t / 2)
  constructor <;> norm_num <;> linarith

lemma trans_sq_sum (t : ℝ) :
    transX Real.sin t ^ 2 + transY Real.cos t ^ 2 = 0.3 ^ 2 := by
  rw [transX_real, transY_real]
  have h := Real.sin_sq_add_cos_sq (t / 2)
  linear_combination (0.3 : ℝ) ^ 2 * h

lemma trans_magnitude (t : ℝ) :
    Real.sqrt (transX Real.sin t ^ 2 + transY Real.cos t ^ 2) = 0.3 := by
  rw [trans_sq_sum, Real.sqrt_sq (by norm_num)]

/-- C3: for every `t ≥ 0` the scale of the frame lies in `[0.6, 0.8]`. -/
theorem scale_range (t : ℝ) (_ht : 0 ≤ t) :
    scale Real.sin t = 0.7 + 0.1 * Real.sin (t / 2) ∧
      0.6 ≤ scale Real.sin t ∧ scale Real.sin t ≤ 0.8 :=
  ⟨scale_real t, scale_real_bounds t⟩

/-- Witness for C3 at `t = 0`. -/
theorem scale_range_witness :
    (0 : ℝ) ≤ 0 ∧ scale Real.sin (0 : ℝ) = 0.7 + 0.1 * Real.sin (0 / 2) ∧
      0.6 ≤ scale Real.sin (0 : ℝ) ∧ scale Real.sin (0 : ℝ) ≤ 0.8 :=
  ⟨le_refl 0, scale_range 0 (le_refl 0)⟩

/-- C4: for every `t` the translation `(transX, transY)` is
`(0.3*sin(t/2), 0.3*cos(t/2))` and its magnitude is at most `0.3`. -/
theorem translation_magnitude_le (t : ℝ) :
    transX Real.sin t = 0.3 * Real.sin (t / 2) ∧
      transY Real.cos t = 0.3 * Real.cos (t / 2) ∧
      Real.sqrt (transX Real.sin t ^ 2 + transY Real.cos t ^ 2) ≤ 0.3 :=
  ⟨transX_real t, transY_real t, le_of_eq (trans_magnitude t)⟩

/-- C5, as stated, fails at `t = 0` with arithmetic taken over the reals: the
magnitude is `0.3` there, it is not strictly below `0.3`, and `slowTime = 0`
is not an odd multiple of `π/4`. -/
theorem translation_magnitude_only_at_odd_multiples_fails :
    Real.sqrt (transX Real.sin (0 : ℝ) ^ 2 + transY Real.cos (0 : ℝ) ^ 2) = 0.3 ∧
      ¬ Real.sqrt (transX Real.sin (0 : ℝ) ^ 2 + transY Real.cos (0 : ℝ) ^ 2) < 0.3 ∧
      ¬ ∃ k : ℤ, slowTime (0 : ℝ) = (2 * (k : ℝ) + 1) * (Real.pi / 4) := by
  refine ⟨trans_magnitude 0, ?_, ?_⟩
  · rw [trans_magnitude 0]; exact lt_irrefl _
  · rintro ⟨k, hk⟩
    rw [slowTime_real, zero_div] at hk
    have hpi : Real.pi / 4 ≠ 0 := by positivity
    rcases mul_eq_zero.mp hk.symm with h | h
    · have h2 : (2 * k + 1 : ℤ) = 0 := by exact_mod_cast h
      omega
    · exact hpi h

/-- C5, amended: with arithmetic taken over the reals, for every `t` the
translation magnitude `sqrt(transX^2 + transY^2)` equals `0.3`, so the bound is
reached at every real time and at no real time is the magnitude strictly
below it. Nothing is stated about the rounded `float` values. -/
theorem translation_magnitude_eq (t : ℝ) :
    Real.sqrt (transX Real.sin t ^ 2 + transY Real.cos t ^ 2) = 0.3 ∧
      ¬ Real.sqrt (transX Real.sin t ^ 2 + transY Real.cos t ^ 2) < 0.3 := by
  refine ⟨trans_magnitude t, ?_⟩
  rw [trans_magnitude t]; exact lt_irrefl _

lemma transform_real (t : ℝ) :
    transform Real.sin Real.cos t =
      [ scale Real.sin t * Real.cos (angle t), -scale Real.sin t * Real.sin (angle t), 0,
        transX Real.sin t,
        scale Real.sin t * Real.sin (angle t), scale Real.sin t * Real.cos (angle t), 0,
        transY Real.cos t,
        0, 0, 1, 0,
        0, 0, 0, 1 ] := by
  have h0 : (0.0 : ℝ) = 0 := by norm_num
  have h1 : (1.0 : ℝ) = 1 := by norm_num
  simp only [transform, h0, h1]

lemma transformRows_eq (t : ℝ) :
    transformRows Real.sin Real.cos t =
      !![scale Real.sin t * Real.cos (angle t), -scale Real.sin t * Real.sin (angle t), 0,
          transX Real.sin t;
         scale Real.sin t * Real.sin (angle t), scale Real.sin t * Real.cos (angle t), 0,
          transY Real.cos t;
         0, 0, 1, 0;
         0, 0, 0, 1] := by
  rw [transformRows, transform_real]
  ext r c
  fin_cases r <;> fin_cases c <;> rfl

lemma uploaded_eq (t : ℝ) :
    glUniformMatrix4fv false (transform Real.sin Real.cos t) =
      !![scale Real.sin t * Real.cos (angle t), scale Real.sin t * Real.sin (angle t), 0, 0;
         -scale Real.sin t * Real.sin (angle t), scale Real.sin t * Real.cos (angle t), 0, 0;
         0, 0, 1, 0;
         transX Real.sin t, transY Real.cos t, 0, 1] := by
  rw [transform_real]
  ext r c
  fin_cases r <;> fin_cases c <;> rfl

/-- What the vertex shader computes in a frame, for every time and vertex:
the array is read column by column, so the rotation is by `-angle`, nothing is
added to `x` and `y`, and the translation lands in the `w` component. -/
lemma framePosition_eq (t x y z : ℝ) :
    framePosition Real.sin Real.cos t (x, y, z) =
      ![scale Real.sin t * (Real.cos (angle t) * x + Real.sin (angle t) * y),
        scale Real.sin t * (-Real.sin (angle t) * x + Real.cos (angle t) * y),
        z,
        transX Real.sin t * x + transY Real.cos t * y + 1] := by
  have h1 : (1.0 : ℝ) = 1 := by norm_num
  rw [framePosition, gl_Position, uploaded_eq, h1]
  ext i
  fin_cases i <;> simp [Matrix.mulVec, Matrix.dotProduct, Fin.sum_univ_succ] <;> ring

/-- Had the array been uploaded with `transpose = GL_TRUE`, the shader would
compute the rotated, scaled and translated point with `w = 1`. -/
lemma gl_Position_transposed_eq (t x y z : ℝ) :
    gl_Position (glUniformMatrix4fv true (transform Real.sin Real.cos t)) (x, y, z) =
      ![scale Real.sin t * (Real.cos (angle t) * x - Real.sin (angle t) * y) + transX Real.sin t,
        scale Real.sin t * (Real.sin (angle t) * x + Real.cos (angle t) * y) + transY Real.cos t,
        z,
        1] := by
  have h1 : (1.0 : ℝ) = 1 := by norm_num
  have h := transformRows_eq t
  rw [transformRows] at h
  rw [gl_Position, h, h1]
  ext i
  fin_cases i <;> simp [Matrix.mulVec, Matrix.dotProduct, Fin.sum_univ_succ] <;> ring

/-- C2 at `t = 0` and the top vertex `(0, 0.5, 0)`: the shader computes
`(0, 0.35, 0, 1.15)`, while the rotated, scaled and translated point is
`(0, 0.65, 0, 1)`. -/
theorem framePosition_top_vertex_at_zero :
    framePosition Real.sin Real.cos (0 : ℝ) (0, 0.5, 0) = ![0, 0.35, 0, 1.15] ∧
      ![scale Real.sin (0 : ℝ) * (Real.cos (angle (0 : ℝ)) * 0 - Real.sin (angle (0 : ℝ)) * 0.5)
            + transX Real.sin (0 : ℝ),
          scale Real.sin (0 : ℝ) * (Real.sin (angle (0 : ℝ)) * 0 + Real.cos (angle (0 : ℝ)) * 0.5)
            + transY Real.cos (0 : ℝ),
          0, 1] = ![(0 : ℝ), 0.65, 0, 1] ∧
      framePosition Real.sin Real.cos (0 : ℝ) (0, 0.5, 0) ≠ ![0, 0.65, 0, 1] := by
  have ha : angle (0 : ℝ) = 0 := by simp [angle, slowTime]
  have hs : scale Real.sin (0 : ℝ) = 0.7 := by simp [scale, slowTime]
  have hx : transX Real.sin (0 : ℝ) = 0 := by simp [transX, slowTime]
  have hy : transY Real.cos (0 : ℝ) = 0.3 := by simp [transY, slowTime]
  have hcode : framePosition Real.sin Real.cos (0 : ℝ) (0, 0.5, 0) = ![0, 0.35, 0, 1.15] := by
    rw [framePosition_eq, ha, hs, hx, hy]
    simp
    norm_num
  refine ⟨hcode, ?_, ?_⟩
  · rw [ha, hs, hx, hy]
    simp
    norm_num
  · rw [hcode]
    intro h
    have h1 := congrFun h 1
    simp at h1
    norm_num at h1

/-! ## Theorems on the shader builder -/

section Effects

variable {α : Type}

lemma vertex_ne_fragment : GL_FRAGMENT_SHADER ≠ GL_VERTEX_SHADER := by decide

/-- C9: for every driver, `createShaderProgram` returns the handle obtained
from `glCreateProgram`; it always makes the link call and its last two calls,
after the link, delete the two shader objects; the diagnostic lines it writes
are exactly one `VERTEX` line when the vertex stage failed to compile, one
`FRAGMENT` line when the fragment stage failed, and one linking line when the
link failed, so something is written if and only if a status is failure.
`compileShader` itself always returns the shader handle and labels a failure
`VERTEX` for `GL_VERTEX_SHADER` and `FRAGMENT` for every other type. -/
theorem createShaderProgram_contract (d : Driver α) (vertexSource fragmentSource : String) :
    (createShaderProgram d vertexSource fragmentSource).2 = d.glCreateProgram ∧
    (∃ before between : List (Call α),
      (createShaderProgram d vertexSource fragmentSource).1 =
        before ++ [Call.glLinkProgram d.glCreateProgram] ++ between ++
          [Call.glDeleteShader (d.glCreateShader GL_VERTEX_SHADER),
            Call.glDeleteShader (d.glCreateShader GL_FRAGMENT_SHADER)] ∧
      (before ++ between).all (fun c => !c.isCleanup) = true) ∧
    ((createShaderProgram d vertexSource fragmentSource).1.filter Call.isCerr =
      (if d.compileStatus GL_VERTEX_SHADER = 0 then
        [Call.cerr ("ERRO::SHADER::VERTEX::COMPILACAO_FALHOU\n"
          ++ d.shaderInfoLog GL_VERTEX_SHADER ++ "\n")] else []) ++
      (if d.compileStatus GL_FRAGMENT_SHADER = 0 then
        [Call.cerr ("ERRO::SHADER::FRAGMENT::COMPILACAO_FALHOU\n"
          ++ d.shaderInfoLog GL_FRAGMENT_SHADER ++ "\n")] else []) ++
      (if d.linkStatus = 0 then
        [Call.cerr ("ERRO::PROGRAMA::SHADER::LINKING_FALHOU\n" ++ d.programInfoLog ++ "\n")]
        else [])) ∧
    ((createShaderProgram d vertexSource fragmentSource).1.any Call.isCerr = true ↔
      (d.compileStatus GL_VERTEX_SHADER = 0 ∨ d.compileStatus GL_FRAGMENT_SHADER = 0 ∨
        d.linkStatus = 0)) ∧
    (∀ (type : Nat) (source : String),
      (compileShader d type source).2 = d.glCreateShader type ∧
      (compileShader d type source).1.filter Call.isCerr =
        if d.compileStatus type = 0 then
          [Call.cerr ((if type = GL_VERTEX_SHADER then "ERRO::SHADER::VERTEX::COMPILACAO_FALHOU\n"
              else "ERRO::SHADER::FRAGMENT::COMPILACAO_FALHOU\n")
            ++ d.shaderInfoLog type ++ "\n")]
        else []) := by
  have hv : ("ERRO::SHADER::" ++ "VERTEX" ++ "::COMPILACAO_FALHOU\n" : String) =
      "ERRO::SHADER::VERTEX::COMPILACAO_FALHOU\n" := by decide
  have hf : ("ERRO::SHADER::" ++ "FRAGMENT" ++ "::COMPILACAO_FALHOU\n" : String) =
      "ERRO::SHADER::FRAGMENT::COMPILACAO_FALHOU\n" := by decide
  refine ⟨rfl, ?_, ?_, ?_, ?_⟩
  rotate_left 3
  · intro type source
    refine ⟨rfl, ?_⟩
    by_cases h2 : type = GL_VERTEX_SHADER
    · subst h2
      by_cases h1 : d.compileStatus GL_VERTEX_SHADER = 0 <;>
        simp [compileShader, Call.isCerr, List.filter, h1, hv]
    · by_cases h1 : d.compileStatus type = 0 <;>
        simp [compileShader, Call.isCerr, List.filter, h1, h2, hf]
  · refine ⟨(compileShader d GL_VERTEX_SHADER vertexSource).1 ++
        (compileShader d GL_FRAGMENT_SHADER fragmentSource).1 ++
        [Call.glCreateProgram,
          Call.glAttachShader d.glCreateProgram (d.glCreateShader GL_VERTEX_SHADER),
          Call.glAttachShader d.glCreateProgram (d.glCreateShader GL_FRAGMENT_SHADER)],
      [Call.glGetProgramiv d.glCreateProgram GL_LINK_STATUS] ++
        (if d.linkStatus = 0 then
          [Call.glGetProgramInfoLog d.glCreateProgram 512,
            Call.cerr ("ERRO::PROGRAMA::SHADER::LINKING_FALHOU\n" ++ d.programInfoLog ++ "\n")]
        else []), ?_, ?_⟩
    · simp [createShaderProgram, compileShader]
    · by_cases h1 : d.compileStatus GL_VERTEX_SHADER = 0 <;>
        by_cases h2 : d.compileStatus GL_FRAGMENT_SHADER = 0 <;>
        by_cases h3 : d.linkStatus = 0 <;>
        simp [compileShader, Call.isCleanup, h1, h2, h3]
  · by_cases h1 : d.compileStatus GL_VERTEX_SHADER = 0 <;>
      by_cases h2 : d.compileStatus GL_FRAGMENT_SHADER = 0 <;>
      by_cases h3 : d.linkStatus = 0 <;>
      simp [createShaderProgram, compileShader, Call.isCerr, List.filter, h1, h2, h3,
        vertex_ne_fragment, hv, hf]
  · by_cases h1 : d.compileStatus GL_VERTEX_SHADER = 0 <;>
      by_cases h2 : d.compileStatus GL_FRAGMENT_SHADER = 0 <;>
      by_cases h3 : d.linkStatus = 0 <;>
      simp [createShaderProgram, compileShader, Call.isCerr, h1, h2, h3]

/-! ## Theorems on `main` -/

lemma createShaderProgram_no_draw (d : Driver α) (vs fs : String) :
    (createShaderProgram d vs fs).1.all
      (fun c => !c.isDraw && !c.isShouldClose) = true := by
  by_cases h1 : d.compileStatus GL_VERTEX_SHADER = 0 <;>
    by_cases h2 : d.compileStatus GL_FRAGMENT_SHADER = 0 <;>
    by_cases h3 : d.linkStatus = 0 <;>
    simp [createShaderProgram, compileShader, Call.isDraw, Call.isShouldClose, h1, h2, h3]

lemma setupCalls_no_draw [Field α] (d : Driver α) :
    (setupCalls d).all (fun c => !c.isDraw && !c.isShouldClose) = true := by
  have h := createShaderProgram_no_draw d vertexShaderSource fragmentShaderSource
  rw [setupCalls, List.all_append, h]
  simp [Call.isDraw, Call.isShouldClose]

lemma filter_flatMap_replicate {β γ : Type} (p : γ → Bool) (g : β → List γ) (x : γ)
    (hg : ∀ b, (g b).filter p = [x]) (l : List β) :
    (l.flatMap g).filter p = List.replicate l.length x := by
  induction l with
  | nil => rfl
  | cons b l ih =>
    rw [List.flatMap_cons, List.filter_append, hg, ih, List.length_cons, List.replicate_succ]
    rfl

lemma filter_eq_nil_of_all {γ : Type} (p q : γ → Bool) (l : List γ)
    (h : l.all (fun c => !p c && !q c) = true) : l.filter p = [] ∧ l.filter q = [] := by
  simp only [List.all_eq_true, Bool.and_eq_true, Bool.not_eq_true'] at h
  constructor <;> rw [List.filter_eq_nil_iff] <;> intro a ha
  · simp [(h a ha).1]
  · simp [(h a ha).2]

lemma loopBody_draw [Field α] (sin cos : α → α) (d : Driver α) (w p v i : Nat) :
    (loopBody sin cos d w p v i).filter Call.isDraw = [Call.glDrawArrays GL_TRIANGLES 0 3] ∧
      (loopBody sin cos d w p v i).filter Call.isShouldClose = [] := by
  constructor <;> simp [loopBody, Call.isDraw, Call.isShouldClose, List.filter]

lemma renderLoop_done_iff [Field α] (sin cos : α → α) (d : Driver α) (w p v : Nat) :
    ∀ fuel i, (renderLoop sin cos d w p v fuel i).2 = true ↔
      ∃ n, n < fuel ∧ d.glfwWindowShouldClose (i + n) ≠ 0 := by
  intro fuel
  induction fuel with
  | zero => intro i; simp [renderLoop]
  | succ fuel ih =>
    intro i
    by_cases h : d.glfwWindowShouldClose i = 0
    · simp only [renderLoop, h, if_true, ih (i + 1)]
      constructor
      · rintro ⟨n, hn, hflag⟩
        exact ⟨n + 1, by omega, by rwa [show i + (n + 1) = i + 1 + n by omega]⟩
      · rintro ⟨n, hn, hflag⟩
        cases n with
        | zero => exact absurd h hflag
        | succ n => exact ⟨n, by omega, by rwa [show i + 1 + n = i + (n + 1) by omega]⟩
    · simp only [renderLoop, h, if_false, true_iff]
      exact ⟨0, by omega, h⟩

lemma renderLoop_closing [Field α] (sin cos : α → α) (d : Driver α) (w p v : Nat) :
    ∀ N fuel i, N < fuel → (∀ k, k < N → d.glfwWindowShouldClose (i + k) = 0) →
      d.glfwWindowShouldClose (i + N) ≠ 0 →
      renderLoop sin cos d w p v fuel i =
        ((List.range N).flatMap
            (fun k => Call.glfwWindowShouldClose w :: loopBody sin cos d w p v (i + k)) ++
          [Call.glfwWindowShouldClose w], true) := by
  intro N
  induction N with
  | zero =>
    intro fuel i hfuel _ hclose
    cases fuel with
    | zero => omega
    | succ fuel => simp [renderLoop, (show d.glfwWindowShouldClose i ≠ 0 from hclose)]
  | succ N ih =>
    intro fuel i hfuel hopen hclose
    cases fuel with
    | zero => omega
    | succ fuel =>
      have h0 : d.glfwWindowShouldClose i = 0 := hopen 0 (by omega)
      have hrest := ih fuel (i + 1) (by omega)
        (fun k hk => by rw [show i + 1 + k = i + (k + 1) by omega]; exact hopen (k + 1) (by omega))
        (by rwa [show i + 1 + N = i + (N + 1) by omega])
      simp only [renderLoop, h0, if_true, hrest, List.range_succ_eq_map, List.flatMap_cons,
        List.flatMap_map, Nat.add_zero, List.cons_append, List.append_assoc]
      congr 3
      apply congrArg (fun g => List.flatMap (List.range N) g ++ [Call.glfwWindowShouldClose w])
      funext k
      simp [Nat.succ_eq_add_one, Nat.add_assoc, Nat.add_comm 1 k]

lemma main_of_started [Field α] (sin cos : α → α) (d : Driver α) (fuel : Nat)
    (hinit : d.glfwInit ≠ 0) (hwindow : d.glfwCreateWindow ≠ 0) (hglad : d.gladLoadGLLoader ≠ 0) :
    main sin cos d fuel =
      if (renderLoop sin cos d d.glfwCreateWindow
            (createShaderProgram d vertexShaderSource fragmentShaderSource).2
            d.genVertexArray fuel 0).2 = true then
        ⟨[Call.glfwInit,
            Call.glfwWindowHint GLFW_CONTEXT_VERSION_MAJOR 3,
            Call.glfwWindowHint GLFW_CONTEXT_VERSION_MINOR 3,
            Call.glfwWindowHint GLFW_OPENGL_PROFILE GLFW_OPENGL_CORE_PROFILE,
            Call.glfwCreateWindow 800 600 "Triangulo OpenGL com Transformacoes (Lento)",
            Call.glfwMakeContextCurrent d.glfwCreateWindow, Call.gladLoadGLLoader] ++
          setupCalls d ++
          (renderLoop sin cos d d.glfwCreateWindow
            (createShaderProgram d vertexShaderSource fragmentShaderSource).2
            d.genVertexArray fuel 0).1 ++
          [Call.glDeleteVertexArrays 1 d.genVertexArray, Call.glDeleteBuffers 1 d.genBuffer,
            Call.glDeleteProgram (createShaderProgram d vertexShaderSource fragmentShaderSource).2,
            Call.glfwTerminate],
          some 0⟩
      else
        ⟨[Call.glfwInit,
            Call.glfwWindowHint GLFW_CONTEXT_VERSION_MAJOR 3,
            Call.glfwWindowHint GLFW_CONTEXT_VERSION_MINOR 3,
            Call.glfwWindowHint GLFW_OPENGL_PROFILE GLFW_OPENGL_CORE_PROFILE,
            Call.glfwCreateWindow 800 600 "Triangulo OpenGL com Transformacoes (Lento)",
            Call.glfwMakeContextCurrent d.glfwCreateWindow, Call.gladLoadGLLoader] ++
          setupCalls d ++
          (renderLoop sin cos d d.glfwCreateWindow
            (createShaderProgram d vertexShaderSource fragmentShaderSource).2
            d.genVertexArray fuel 0).1,
          none⟩ := by
  simp [main, hinit, hwindow, hglad]

lemma main_of_init_failed [Field α] (sin cos : α → α) (d : Driver α) (fuel : Nat)
    (hinit : d.glfwInit = 0) :
    main sin cos d fuel =
      ⟨[Call.glfwInit, Call.cerr "Falha ao inicializar GLFW\n"], some (-1)⟩ := by
  simp [main, hinit]

lemma main_of_window_failed [Field α] (sin cos : α → α) (d : Driver α) (fuel : Nat)
    (hinit : d.glfwInit ≠ 0) (hwindow : d.glfwCreateWindow = 0) :
    main sin cos d fuel =
      ⟨[Call.glfwInit,
          Call.glfwWindowHint GLFW_CONTEXT_VERSION_MAJOR 3,
          Call.glfwWindowHint GLFW_CONTEXT_VERSION_MINOR 3,
          Call.glfwWindowHint GLFW_OPENGL_PROFILE GLFW_OPENGL_CORE_PROFILE,
          Call.glfwCreateWindow 800 600 "Triangulo OpenGL com Transformacoes (Lento)",
          Call.cerr "Falha ao criar janela GLFW\n", Call.glfwTerminate], some (-1)⟩ := by
  simp [main, hinit, hwindow]

lemma main_of_glad_failed [Field α] (sin cos : α → α) (d : Driver α) (fuel : Nat)
    (hinit : d.glfwInit ≠ 0) (hwindow : d.glfwCreateWindow ≠ 0) (hglad : d.gladLoadGLLoader = 0) :
    main sin cos d fuel =
      ⟨[Call.glfwInit,
          Call.glfwWindowHint GLFW_CONTEXT_VERSION_MAJOR 3,
          Call.glfwWindowHint GLFW_CONTEXT_VERSION_MINOR 3,
          Call.glfwWindowHint GLFW_OPENGL_PROFILE GLFW_OPENGL_CORE_PROFILE,
          Call.glfwCreateWindow 800 600 "Triangulo OpenGL com Transformacoes (Lento)",
          Call.glfwMakeContextCurrent d.glfwCreateWindow, Call.gladLoadGLLoader,
          Call.cerr "Falha ao inicializar GLAD\n"], some (-1)⟩ := by
  simp [main, hinit, hwindow, hglad]

/-- C7: `main` returns 0 exactly when `glfwInit`, `glfwCreateWindow` and
`gladLoadGLLoader` all succeed and the close flag is observed true (within the
`fuel` evaluations of the loop condition that are run); when one of the three
fails, `main` returns -1 for every `fuel`, has written exactly one diagnostic
line to standard error, and has made no OpenGL call at all: no shader
creation, no buffer setup, no drawing. -/
theorem main_exit_code [Field α] (sin cos : α → α) (d : Driver α) :
    (∀ fuel, (main sin cos d fuel).exit = some 0 ↔
      (d.glfwInit ≠ 0 ∧ d.glfwCreateWindow ≠ 0 ∧ d.gladLoadGLLoader ≠ 0 ∧
        ∃ n, n < fuel ∧ d.glfwWindowShouldClose n ≠ 0)) ∧
    ((∃ fuel, (main sin cos d fuel).exit = some 0) ↔
      (d.glfwInit ≠ 0 ∧ d.glfwCreateWindow ≠ 0 ∧ d.gladLoadGLLoader ≠ 0 ∧
        ∃ n, d.glfwWindowShouldClose n ≠ 0)) ∧
    ((d.glfwInit = 0 ∨ d.glfwCreateWindow = 0 ∨ d.gladLoadGLLoader = 0) →
      ∀ fuel, (main sin cos d fuel).exit = some (-1) ∧
        (main sin cos d fuel).calls.filter Call.isCerr =
          [Call.cerr (if d.glfwInit = 0 then "Falha ao inicializar GLFW\n"
            else if d.glfwCreateWindow = 0 then "Falha ao criar janela GLFW\n"
            else "Falha ao inicializar GLAD\n")] ∧
        (main sin cos d fuel).calls.all (fun c => !c.isGL) = true) := by
  have key : ∀ fuel, (main sin cos d fuel).exit = some 0 ↔
      (d.glfwInit ≠ 0 ∧ d.glfwCreateWindow ≠ 0 ∧ d.gladLoadGLLoader ≠ 0 ∧
        ∃ n, n < fuel ∧ d.glfwWindowShouldClose n ≠ 0) := by
    intro fuel
    by_cases hinit : d.glfwInit = 0
    · simp [main_of_init_failed sin cos d fuel hinit, hinit]
    by_cases hwindow : d.glfwCreateWindow = 0
    · simp [main_of_window_failed sin cos d fuel hinit hwindow, hwindow]
    by_cases hglad : d.gladLoadGLLoader = 0
    · simp [main_of_glad_failed sin cos d fuel hinit hwindow hglad, hglad]
    have hloop := renderLoop_done_iff sin cos d d.glfwCreateWindow
      (createShaderProgram d vertexShaderSource fragmentShaderSource).2 d.genVertexArray fuel 0
    simp only [Nat.zero_add] at hloop
    rw [main_of_started sin cos d fuel hinit hwindow hglad]
    split
    · next hdone => simpa [hinit, hwindow, hglad] using hloop.mp hdone
    · next hdone =>
      have hno := mt hloop.mpr hdone
      simp only [reduceCtorEq, false_iff]
      exact fun h => hno h.2.2.2
  refine ⟨key, ?_, ?_⟩
  · constructor
    · rintro ⟨fuel, h⟩
      obtain ⟨h1, h2, h3, n, _, hn⟩ := (key fuel).mp h
      exact ⟨h1, h2, h3, n, hn⟩
    · rintro ⟨h1, h2, h3, n, hn⟩
      exact ⟨n + 1, (key (n + 1)).mpr ⟨h1, h2, h3, n, Nat.lt_succ_self n, hn⟩⟩
  · intro hfail fuel
    by_cases hinit : d.glfwInit = 0
    · simp [main_of_init_failed sin cos d fuel hinit, hinit, Call.isCerr, Call.isGL, List.filter]
    by_cases hwindow : d.glfwCreateWindow = 0
    · simp [main_of_window_failed sin cos d fuel hinit hwindow, hinit, hwindow, Call.isCerr,
        Call.isGL, List.filter]
    have hglad : d.gladLoadGLLoader = 0 := by
      rcases hfail with h | h | h
      · exact absurd h hinit
      · exact absurd h hwindow
      · exact h
    simp [main_of_glad_failed sin cos d fuel hinit hwindow hglad, hinit, hwindow, Call.isCerr,
      Call.isGL, List.filter]

/-- Witness for C7: a run that returns 0 and a run whose loader fails. -/
theorem main_exit_code_witness :
    (main Real.sin Real.cos (sampleDriver : Driver ℝ) 3).exit = some 0 ∧
      ((main Real.sin Real.cos (noLoaderDriver : Driver ℝ) 3).exit = some (-1) ∧
        (main Real.sin Real.cos (noLoaderDriver : Driver ℝ) 3).calls.filter Call.isCerr =
          [Call.cerr "Falha ao inicializar GLAD\n"] ∧
        (main Real.sin Real.cos (noLoaderDriver : Driver ℝ) 3).calls.all
          (fun c => !c.isGL) = true) :=
  ⟨((main_exit_code Real.sin Real.cos (sampleDriver : Driver ℝ)).1 3).mpr
      ⟨by decide, by decide, by decide, 2, by decide, by decide⟩,
    (main_exit_code Real.sin Real.cos (noLoaderDriver : Driver ℝ)).2.2
      (Or.inr (Or.inr rfl)) 3⟩

/-- C8, as stated, fails when `glfwCreateWindow` returns `NULL` after a
successful `glfwInit`: `main` returns -1 and has called `glfwTerminate`. -/
theorem window_failure_calls_glfwTerminate :
    (noWindowDriver : Driver ℝ).glfwInit ≠ 0 ∧ (noWindowDriver : Driver ℝ).glfwCreateWindow = 0 ∧
      (main Real.sin Real.cos (noWindowDriver : Driver ℝ) 0).exit = some (-1) ∧
      (main Real.sin Real.cos (noWindowDriver : Driver ℝ) 0).calls.filter Call.isCleanup =
        [Call.glfwTerminate] ∧
      Call.glfwTerminate ∈ (main Real.sin Real.cos (noWindowDriver : Driver ℝ) 0).calls := by
  have hinit : (noWindowDriver : Driver ℝ).glfwInit ≠ 0 := by decide
  have hwindow : (noWindowDriver : Driver ℝ).glfwCreateWindow = 0 := rfl
  refine ⟨hinit, hwindow, ?_, ?_, ?_⟩ <;>
    simp [main_of_window_failed Real.sin Real.cos noWindowDriver 0 hinit hwindow,
      Call.isCleanup, List.filter]

/-- C8, amended: when `glfwInit` fails, and when `gladLoadGLLoader` fails, `main`
returns -1 without any cleanup call (`glfwTerminate` is not called); when
`glfwCreateWindow` fails, `main` writes its diagnostic, calls `glfwTerminate`
once as its last call, and returns -1, with no other cleanup call. -/
theorem main_failure_cleanup [Field α] (sin cos : α → α) (d : Driver α) (fuel : Nat) :
    (d.glfwInit = 0 →
      (main sin cos d fuel).exit = some (-1) ∧
        (main sin cos d fuel).calls.filter Call.isCleanup = []) ∧
    (d.glfwInit ≠ 0 → d.glfwCreateWindow = 0 →
      (main sin cos d fuel).exit = some (-1) ∧
        ∃ before : List (Call α),
          (main sin cos d fuel).calls =
            before ++ [Call.cerr "Falha ao criar janela GLFW\n", Call.glfwTerminate] ∧
          before.filter Call.isCleanup = []) ∧
    (d.glfwInit ≠ 0 → d.glfwCreateWindow ≠ 0 → d.gladLoadGLLoader = 0 →
      (main sin cos d fuel).exit = some (-1) ∧
        (main sin cos d fuel).calls.filter Call.isCleanup = []) := by
  refine ⟨fun hinit => ?_, fun hinit hwindow => ?_, fun hinit hwindow hglad => ?_⟩
  · simp [main_of_init_failed sin cos d fuel hinit, Call.isCleanup, List.filter]
  · rw [main_of_window_failed sin cos d fuel hinit hwindow]
    refine ⟨rfl, [Call.glfwInit,
          Call.glfwWindowHint GLFW_CONTEXT_VERSION_MAJOR 3,
          Call.glfwWindowHint GLFW_CONTEXT_VERSION_MINOR 3,
          Call.glfwWindowHint GLFW_OPENGL_PROFILE GLFW_OPENGL_CORE_PROFILE,
          Call.glfwCreateWindow 800 600 "Triangulo OpenGL com Transformacoes (Lento)"],
        rfl, ?_⟩
    simp [Call.isCleanup, List.filter]
  · simp [main_of_glad_failed sin cos d fuel hinit hwindow hglad, Call.isCleanup, List.filter]

/-- Witness for C8 (amended) on the three failure drivers. -/
theorem main_failure_cleanup_witness :
    ((main Real.sin Real.cos (noInitDriver : Driver ℝ) 3).exit = some (-1) ∧
        (main Real.sin Real.cos (noInitDriver : Driver ℝ) 3).calls.filter Call.isCleanup = []) ∧
      ((main Real.sin Real.cos (noWindowDriver : Driver ℝ) 3).exit = some (-1) ∧
        ∃ before : List (Call ℝ),
          (main Real.sin Real.cos (noWindowDriver : Driver ℝ) 3).calls =
            before ++ [Call.cerr "Falha ao criar janela GLFW\n", Call.glfwTerminate] ∧
          before.filter Call.isCleanup = []) ∧
      ((main Real.sin Real.cos (noLoaderDriver : Driver ℝ) 3).exit = some (-1) ∧
        (main Real.sin Real.cos (noLoaderDriver : Driver ℝ) 3).calls.filter
          Call.isCleanup = []) :=
  ⟨(main_failure_cleanup Real.sin Real.cos (noInitDriver : Driver ℝ) 3).1 rfl,
    (main_failure_cleanup Real.sin Real.cos (noWindowDriver : Driver ℝ) 3).2.1 (by decide) rfl,
    (main_failure_cleanup Real.sin Real.cos (noLoaderDriver : Driver ℝ) 3).2.2
      (by decide) (by decide) rfl⟩

/-- C10: after a successful startup, if the close flag is first observed true
at the top of iteration `N` (and the loop is run for more than `N` evaluations
of its condition), `main` returns 0 and its calls are: the startup calls, with
no draw call and no close-flag observation among them; then `N` iterations,
each one observation of the close flag followed by the loop body, which holds
exactly one draw call, `glDrawArrays(GL_TRIANGLES, 0, 3)`; then the
observation that ends the loop, followed by exactly `glDeleteVertexArrays`,
`glDeleteBuffers`, `glDeleteProgram`, `glfwTerminate`. The whole run holds
exactly `N` draw calls and `N + 1` observations of the close flag. -/
theorem main_draws_then_teardown [Field α] (sin cos : α → α) (d : Driver α) (N fuel : Nat)
    (hinit : d.glfwInit ≠ 0) (hwindow : d.glfwCreateWindow ≠ 0) (hglad : d.gladLoadGLLoader ≠ 0)
    (hopen : ∀ i, i < N → d.glfwWindowShouldClose i = 0)
    (hclose : d.glfwWindowShouldClose N ≠ 0) (hfuel : N < fuel) :
    (main sin cos d fuel).exit = some 0 ∧
    (∃ startup : List (Call α),
      startup.filter Call.isDraw = [] ∧ startup.filter Call.isShouldClose = [] ∧
      (main sin cos d fuel).calls =
        startup ++
        (List.range N).flatMap (fun i =>
          Call.glfwWindowShouldClose d.glfwCreateWindow ::
            loopBody sin cos d d.glfwCreateWindow d.glCreateProgram d.genVertexArray i) ++
        [Call.glfwWindowShouldClose d.glfwCreateWindow,
          Call.glDeleteVertexArrays 1 d.genVertexArray, Call.glDeleteBuffers 1 d.genBuffer,
          Call.glDeleteProgram d.glCreateProgram, Call.glfwTerminate]) ∧
    (∀ i, (loopBody sin cos d d.glfwCreateWindow d.glCreateProgram d.genVertexArray i).filter
        Call.isDraw = [Call.glDrawArrays GL_TRIANGLES 0 3]) ∧
    (main sin cos d fuel).calls.filter Call.isDraw =
      List.replicate N (Call.glDrawArrays GL_TRIANGLES 0 3) ∧
    ((main sin cos d fuel).calls.filter Call.isShouldClose).length = N + 1 := by
  have hloop := renderLoop_closing sin cos d d.glfwCreateWindow d.glCreateProgram
    d.genVertexArray N fuel 0 hfuel (fun k hk => by rw [Nat.zero_add]; exact hopen k hk)
    (by rwa [Nat.zero_add])
  simp only [Nat.zero_add] at hloop
  have hprog : (createShaderProgram d vertexShaderSource fragmentShaderSource).2 =
    d.glCreateProgram := rfl
  have hsetup := filter_eq_nil_of_all Call.isDraw Call.isShouldClose _ (setupCalls_no_draw d)
  have hbodyD : ∀ i, (Call.glfwWindowShouldClose d.glfwCreateWindow ::
      loopBody sin cos d d.glfwCreateWindow d.glCreateProgram d.genVertexArray i).filter
        Call.isDraw = [Call.glDrawArrays GL_TRIANGLES 0 3] := by
    intro i
    rw [List.filter_cons_of_neg (by simp [Call.isDraw])]
    exact (loopBody_draw sin cos d _ _ _ i).1
  have hbodyS : ∀ i, (Call.glfwWindowShouldClose d.glfwCreateWindow ::
      loopBody sin cos d d.glfwCreateWindow d.glCreateProgram d.genVertexArray i).filter
        Call.isShouldClose = [Call.glfwWindowShouldClose d.glfwCreateWindow] := by
    intro i
    rw [List.filter_cons_of_pos (by simp [Call.isShouldClose]),
      (loopBody_draw sin cos d _ _ _ i).2]
  have hmain : main sin cos d fuel =
      ⟨[Call.glfwInit,
          Call.glfwWindowHint GLFW_CONTEXT_VERSION_MAJOR 3,
          Call.glfwWindowHint GLFW_CONTEXT_VERSION_MINOR 3,
          Call.glfwWindowHint GLFW_OPENGL_PROFILE GLFW_OPENGL_CORE_PROFILE,
          Call.glfwCreateWindow 800 600 "Triangulo OpenGL com Transformacoes (Lento)",
          Call.glfwMakeContextCurrent d.glfwCreateWindow, Call.gladLoadGLLoader] ++
        setupCalls d ++
        ((List.range N).flatMap (fun i =>
          Call.glfwWindowShouldClose d.glfwCreateWindow ::
            loopBody sin cos d d.glfwCreateWindow d.glCreateProgram d.genVertexArray i) ++
          [Call.glfwWindowShouldClose d.glfwCreateWindow]) ++
        [Call.glDeleteVertexArrays 1 d.genVertexArray, Call.glDeleteBuffers 1 d.genBuffer,
          Call.glDeleteProgram d.glCreateProgram, Call.glfwTerminate], some 0⟩ := by
    rw [main_of_started sin cos d fuel hinit hwindow hglad, hprog, hloop]
    simp
  have hstartD : ([Call.glfwInit,
          Call.glfwWindowHint GLFW_CONTEXT_VERSION_MAJOR 3,
          Call.glfwWindowHint GLFW_CONTEXT_VERSION_MINOR 3,
          Call.glfwWindowHint GLFW_OPENGL_PROFILE GLFW_OPENGL_CORE_PROFILE,
          Call.glfwCreateWindow 800 600 "Triangulo OpenGL com Transformacoes (Lento)",
          Call.glfwMakeContextCurrent d.glfwCreateWindow, Call.gladLoadGLLoader] ++
        setupCalls d).filter Call.isDraw = [] := by
    rw [List.filter_append, hsetup.1]; simp [Call.isDraw, List.filter]
  have hstartS : ([Call.glfwInit,
          Call.glfwWindowHint GLFW_CONTEXT_VERSION_MAJOR 3,
          Call.glfwWindowHint GLFW_CONTEXT_VERSION_MINOR 3,
          Call.glfwWindowHint GLFW_OPENGL_PROFILE GLFW_OPENGL_CORE_PROFILE,
          Call.glfwCreateWindow 800 600 "Triangulo OpenGL com Transformacoes (Lento)",
          Call.glfwMakeContextCurrent d.glfwCreateWindow, Call.gladLoadGLLoader] ++
        setupCalls d).filter Call.isShouldClose = [] := by
    rw [List.filter_append, hsetup.2]; simp [Call.isShouldClose, List.filter]
  refine ⟨by rw [hmain], ⟨_, hstartD, hstartS, ?_⟩, fun i => (loopBody_draw sin cos d _ _ _ i).1,
    ?_, ?_⟩
  · rw [hmain]; simp
  · rw [hmain]
    simp only [List.filter_append, hstartD,
      filter_flatMap_replicate Call.isDraw _ _ hbodyD, List.length_range, List.nil_append]
    simp [Call.isDraw, List.filter]
  · rw [hmain]
    simp only [List.filter_append, hstartS,
      filter_flatMap_replicate Call.isShouldClose _ _ hbodyS, List.length_range, List.nil_append]
    simp [Call.isShouldClose, List.filter]

/-- Witness for C10: the window is closed at the top of iteration 2. -/
theorem main_draws_then_teardown_witness :
    (main Real.sin Real.cos (sampleDriver : Driver ℝ) 3).exit = some 0 ∧
      (main Real.sin Real.cos (sampleDriver : Driver ℝ) 3).calls.filter Call.isDraw =
        List.replicate 2 (Call.glDrawArrays GL_TRIANGLES 0 3) ∧
      ((main Real.sin Real.cos (sampleDriver : Driver ℝ) 3).calls.filter
        Call.isShouldClose).length = 2 + 1 :=
  have h := main_draws_then_teardown Real.sin Real.cos (sampleDriver : Driver ℝ) 2 3
    (by decide) (by decide) (by decide) (by decide) (by decide) (by decide)
  ⟨h.1, h.2.2.2.1, h.2.2.2.2⟩

end Effects

end Triangle
